import Mathlib

/-!
Verification of the gas-price estimation library (gp-gas-estimation).

The source stores prices as f64. We embed an f64 value as `Option ℚ`:
`none` stands for NaN and `some q` for an ordinary finite value, with exact
rational arithmetic standing in for float arithmetic. The NaN propagation
rules of the operations the source uses (addition, multiplication,
f64::min, f64::ceil, PartialOrd::partial_cmp) are embedded explicitly.
-/

/-- An f64 value: `none` is NaN, `some q` a finite value. -/
abbrev F : Type := Option ℚ

/-- f64 addition: NaN-propagating. -/
def fadd : F → F → F
  | some a, some b => some (a + b)
  | _, _ => none

/-- f64 multiplication: NaN-propagating. -/
def fmul : F → F → F
  | some a, some b => some (a * b)
  | _, _ => none

/-- f64::min: if exactly one operand is NaN the other is returned. -/
def fmin : F → F → F
  | some a, some b => some (min a b)
  | some a, none => some a
  | none, b => b

/-- f64::ceil: rounds up to the nearest integer; NaN maps to NaN. -/
def fceil : F → F
  | some a => some ((Int.ceil a : ℤ) : ℚ)
  | none => none

/-- PartialOrd::partial_cmp on f64: `none` (unordered) when either side is NaN. -/
def fcmp : F → F → Option Ordering
  | some a, some b =>
      some (if a < b then Ordering.lt else if a = b then Ordering.eq else Ordering.gt)
  | _, _ => none

/-- The comparison a `<=` b on f64 values: false whenever either side is NaN. -/
def fle : F → F → Prop
  | some a, some b => a ≤ b
  | _, _ => False

instance (a b : F) : Decidable (fle a b) :=
  match a, b with
  | some x, some y => inferInstanceAs (Decidable (x ≤ y))
  | some _, none => inferInstanceAs (Decidable False)
  | none, _ => inferInstanceAs (Decidable False)

/-- Gas price structure for 1559 transactions (src/gas_price.rs). -/
structure GasPrice1559 where
  base_fee_per_gas : F
  max_fee_per_gas : F
  max_priority_fee_per_gas : F
deriving DecidableEq

namespace GasPrice1559

/-- Bump maximum gas price by factor (src/gas_price.rs, GasPrice1559::bump_cap). -/
def bump_cap (self : GasPrice1559) (factor : F) : GasPrice1559 :=
  { base_fee_per_gas := self.base_fee_per_gas
    max_fee_per_gas := fmul self.max_fee_per_gas factor
    max_priority_fee_per_gas := self.max_priority_fee_per_gas }

/-- Ceil maximum gas price (src/gas_price.rs, GasPrice1559::ceil_cap). -/
def ceil_cap (self : GasPrice1559) : GasPrice1559 :=
  { base_fee_per_gas := self.base_fee_per_gas
    max_fee_per_gas := fceil self.max_fee_per_gas
    max_priority_fee_per_gas := self.max_priority_fee_per_gas }

/-- If current cap is higher than the input, set to input (src/gas_price.rs,
GasPrice1559::limit_cap). -/
def limit_cap (self : GasPrice1559) (cap : F) : GasPrice1559 :=
  { base_fee_per_gas := self.base_fee_per_gas
    max_fee_per_gas := fmin self.max_fee_per_gas cap
    max_priority_fee_per_gas := self.max_priority_fee_per_gas }

end GasPrice1559

/-- Main gas price structure (src/gas_price.rs, EstimatedGasPrice). -/
structure EstimatedGasPrice where
  legacy : F
  eip1559 : Option GasPrice1559
deriving DecidableEq

namespace EstimatedGasPrice

/-- std::cmp::min_by: returns the second argument exactly when the comparator
answers Greater on the pair, else the first. -/
def min_by (a b : F) (cmp : F → F → Ordering) : F :=
  match cmp a b with
  | Ordering.gt => b
  | _ => a

/-- Estimate the gas price (src/gas_price.rs, EstimatedGasPrice::estimate):
min_by of max_fee_per_gas and max_priority_fee_per_gas + base_fee_per_gas,
with an unordered comparison treated as Equal; legacy when no 1559 part. -/
def estimate (self : EstimatedGasPrice) : F :=
  match self.eip1559 with
  | some gas_price =>
      min_by gas_price.max_fee_per_gas
        (fadd gas_price.max_priority_fee_per_gas gas_price.base_fee_per_gas)
        (fun a b => (fcmp a b).getD Ordering.eq)
  | none => self.legacy

/-- Maximum gas price willing to pay (src/gas_price.rs, EstimatedGasPrice::cap). -/
def cap (self : EstimatedGasPrice) : F :=
  match self.eip1559 with
  | some gas_price => gas_price.max_fee_per_gas
  | none => self.legacy

/-- Bump maximum gas price by factor (src/gas_price.rs, EstimatedGasPrice::bump_cap). -/
def bump_cap (self : EstimatedGasPrice) (factor : F) : EstimatedGasPrice :=
  { legacy := fmul self.legacy factor
    eip1559 := self.eip1559.bind (fun x => some (x.bump_cap factor)) }

/-- Ceil maximum gas price (src/gas_price.rs, EstimatedGasPrice::ceil_cap). -/
def ceil_cap (self : EstimatedGasPrice) : EstimatedGasPrice :=
  { legacy := fceil self.legacy
    eip1559 := self.eip1559.bind (fun x => some x.ceil_cap) }

/-- If current cap is higher than the input, set to input (src/gas_price.rs,
EstimatedGasPrice::limit_cap). -/
def limit_cap (self : EstimatedGasPrice) (cap : F) : EstimatedGasPrice :=
  { legacy := fmin self.legacy cap
    eip1559 := self.eip1559.bind (fun x => some (x.limit_cap cap)) }

end EstimatedGasPrice

/- The structures and effective-price function of src/lib.rs, which duplicates
the data model of src/gas_price.rs with its own field-wise identical types. -/
namespace Lib

/-- src/lib.rs, GasPrice1559. -/
structure GasPrice1559 where
  base_fee_per_gas : F
  max_fee_per_gas : F
  max_priority_fee_per_gas : F
deriving DecidableEq

/-- src/lib.rs, GasPrice. -/
structure GasPrice where
  legacy : F
  eip1559 : Option Lib.GasPrice1559
deriving DecidableEq

/-- src/lib.rs, GasPrice::estimate_gas_price: explicit match on partial_cmp of
max_fee_per_gas against max_priority_fee_per_gas + base_fee_per_gas. -/
def GasPrice.estimate_gas_price (self : GasPrice) : F :=
  match self.eip1559 with
  | some gas_price =>
      match fcmp gas_price.max_fee_per_gas
          (fadd gas_price.max_priority_fee_per_gas gas_price.base_fee_per_gas) with
      | some Ordering.lt => gas_price.max_fee_per_gas
      | some Ordering.eq => gas_price.max_fee_per_gas
      | some Ordering.gt =>
          fadd gas_price.max_priority_fee_per_gas gas_price.base_fee_per_gas
      | none => gas_price.max_fee_per_gas
  | none => self.legacy

end Lib

/-- std::time::Duration, reduced to whole seconds (the only granularity the
source uses). -/
structure Duration where
  secs : ℕ
deriving DecidableEq

/-- Duration::from_secs. -/
def Duration.from_secs (n : ℕ) : Duration := ⟨n⟩

/-- src/lib.rs, DEFAULT_GAS_LIMIT. -/
def DEFAULT_GAS_LIMIT : F := some 21000

/-- src/lib.rs, DEFAULT_TIME_LIMIT. -/
def DEFAULT_TIME_LIMIT : Duration := Duration.from_secs 30

/-- The GasPriceEstimating trait (src/lib.rs): an implementation supplies
estimate_with_limits; the return type of the async Result is abstracted as α. -/
structure GasPriceEstimating (α : Type) where
  estimate_with_limits : F → Duration → α

/-- The trait's provided zero-argument method (src/lib.rs,
GasPriceEstimating::estimate): delegates to estimate_with_limits with the two
default constants. -/
def GasPriceEstimating.estimate {α : Type} (self : GasPriceEstimating α) : α :=
  self.estimate_with_limits DEFAULT_GAS_LIMIT DEFAULT_TIME_LIMIT

/-- One transformation step on a GasPrice1559 value, for stating properties of
sequences of calls. -/
inductive CapOp where
  | bump (factor : F)
  | ceil
  | limit (cap : F)
deriving DecidableEq

/-- Apply one transformation. -/
def applyOp (d : GasPrice1559) : CapOp → GasPrice1559
  | CapOp.bump f => d.bump_cap f
  | CapOp.ceil => d.ceil_cap
  | CapOp.limit c => d.limit_cap c

/-- Apply a sequence of transformations, left to right. -/
def applyOps (d : GasPrice1559) : List CapOp → GasPrice1559
  | [] => d
  | op :: rest => applyOps (applyOp d op) rest

/-- Modelled from the spec: the Priority Combinator (spec sections 4.3 and 7);
its source file, priority.rs, is not among the provided sources. Each entry of
the list is a source's outcome for this call, in priority order. The combinator
returns the first success and queries nothing after it; if every source fails
it returns the aggregated list of each failure reason in priority order.
Timing, time-budget partitioning and cancellation are not modelled. -/
def priorityEstimate {ε γ : Type} : List (Except ε γ) → Except (List ε) γ
  | [] => Except.error []
  | Except.ok g :: _ => Except.ok g
  | Except.error e :: rest =>
      match priorityEstimate rest with
      | Except.ok g => Except.ok g
      | Except.error es => Except.error (e :: es)

/-! ## Claim C1 -/

/-- Claim C1 as stated is false: limit_cap clamps max_fee_per_gas to the cap
but leaves max_priority_fee_per_gas untouched, so with max_fee = 100,
priority = 50 and cap = 10 the result has priority 50 above max_fee 10. -/
theorem limit_cap_invariant_counterexample :
    (0 : ℚ) ≤ 10
    ∧ ¬ (fle ((GasPrice1559.mk (some 0) (some 100) (some 50)).limit_cap
            (some 10)).max_fee_per_gas (some 10)
        ∧ fle ((GasPrice1559.mk (some 0) (some 100) (some 50)).limit_cap
            (some 10)).max_priority_fee_per_gas
          ((GasPrice1559.mk (some 0) (some 100) (some 50)).limit_cap
            (some 10)).max_fee_per_gas) := by
  decide

/-- Claim C1 (amended): for every GasPrice1559 value d and finite cap c with
0 ≤ c, d.limit_cap c has max_fee_per_gas at most c (also when max_fee_per_gas
is NaN, since f64::min then returns the cap); max_priority_fee_per_gas and
base_fee_per_gas are left unchanged, so priority ≤ max_fee is not restored. -/
theorem limit_cap_bounds_cap (d : GasPrice1559) (c : ℚ) (h : 0 ≤ c) :
    fle (d.limit_cap (some c)).max_fee_per_gas (some c)
    ∧ (d.limit_cap (some c)).max_priority_fee_per_gas = d.max_priority_fee_per_gas
    ∧ (d.limit_cap (some c)).base_fee_per_gas = d.base_fee_per_gas := by
  refine ⟨?_, rfl, rfl⟩
  cases hm : d.max_fee_per_gas with
  | none => simp [GasPrice1559.limit_cap, fmin, hm, fle]
  | some m => simp [GasPrice1559.limit_cap, fmin, hm, fle, min_le_right]

/-- Witness for limit_cap_bounds_cap at d = (0, 100, 50), c = 10. -/
theorem limit_cap_bounds_cap_witness :
    fle ((GasPrice1559.mk (some 0) (some 100) (some 50)).limit_cap
        (some 10)).max_fee_per_gas (some 10)
    ∧ ((GasPrice1559.mk (some 0) (some 100) (some 50)).limit_cap
        (some 10)).max_priority_fee_per_gas
      = (GasPrice1559.mk (some 0) (some 100) (some 50)).max_priority_fee_per_gas
    ∧ ((GasPrice1559.mk (some 0) (some 100) (some 50)).limit_cap
        (some 10)).base_fee_per_gas
      = (GasPrice1559.mk (some 0) (some 100) (some 50)).base_fee_per_gas :=
  limit_cap_bounds_cap (GasPrice1559.mk (some 0) (some 100) (some 50)) 10 (by norm_num)

/-! ## Claim C2 -/

/-- Claim C2 as stated is false: bump_cap multiplies only max_fee_per_gas, not
max_priority_fee_per_gas, so scaling (base 5, max 50, priority 2) by 2 does not
give (base 5, max 100, priority 4). -/
theorem bump_cap_counterexample :
    (GasPrice1559.mk (some 5) (some 50) (some 2)).bump_cap (some 2) ≠
      GasPrice1559.mk (some 5) (some 100) (some 4) := by
  norm_num [GasPrice1559.bump_cap, fmul]

/-- Claim C2 (amended): for factor f > 0, bump_cap multiplies legacy by f and,
when the dynamic-fee part is present, multiplies max_fee_per_gas by f while
leaving base_fee_per_gas and also max_priority_fee_per_gas unchanged; scaling
(base 5, max 50, priority 2) by 2 yields (base 5, max 100, priority 2). -/
theorem bump_cap_scales_cap (p : EstimatedGasPrice) (q : ℚ) (hq : 0 < q)
    (g : GasPrice1559) (h : p.eip1559 = some g) :
    (p.bump_cap (some q)).legacy = fmul p.legacy (some q)
    ∧ (p.bump_cap (some q)).eip1559 =
        some (GasPrice1559.mk g.base_fee_per_gas
          (fmul g.max_fee_per_gas (some q)) g.max_priority_fee_per_gas)
    ∧ (GasPrice1559.mk (some 5) (some 50) (some 2)).bump_cap (some 2) =
        GasPrice1559.mk (some 5) (some 100) (some 2) := by
  refine ⟨rfl, ?_, by norm_num [GasPrice1559.bump_cap, fmul]⟩
  simp [EstimatedGasPrice.bump_cap, h, GasPrice1559.bump_cap]

/-- Witness for bump_cap_scales_cap at legacy 10, eip1559 (5, 50, 2), factor 2. -/
theorem bump_cap_scales_cap_witness :
    ((EstimatedGasPrice.mk (some 10)
        (some (GasPrice1559.mk (some 5) (some 50) (some 2)))).bump_cap
      (some 2)).legacy = fmul (some 10) (some 2)
    ∧ ((EstimatedGasPrice.mk (some 10)
        (some (GasPrice1559.mk (some 5) (some 50) (some 2)))).bump_cap
      (some 2)).eip1559 =
        some (GasPrice1559.mk (GasPrice1559.mk (some 5) (some 50) (some 2)).base_fee_per_gas
          (fmul (GasPrice1559.mk (some 5) (some 50) (some 2)).max_fee_per_gas (some 2))
          (GasPrice1559.mk (some 5) (some 50) (some 2)).max_priority_fee_per_gas)
    ∧ (GasPrice1559.mk (some 5) (some 50) (some 2)).bump_cap (some 2) =
        GasPrice1559.mk (some 5) (some 100) (some 2) :=
  bump_cap_scales_cap
    (EstimatedGasPrice.mk (some 10) (some (GasPrice1559.mk (some 5) (some 50) (some 2))))
    2 (by norm_num) (GasPrice1559.mk (some 5) (some 50) (some 2)) rfl

/-! ## Claim C4 -/

/-- Claim C4: on finite values estimate returns min(max_fee_per_gas,
max_priority_fee_per_gas + base_fee_per_gas) when the dynamic-fee part is
present, legacy otherwise; with base 20, priority 2, max 100 it returns 22,
and with max 21 it returns 21. -/
theorem estimate_is_min (b p m : ℚ) (l : F) :
    EstimatedGasPrice.estimate
        (EstimatedGasPrice.mk l (some (GasPrice1559.mk (some b) (some m) (some p))))
      = some (min m (p + b))
    ∧ EstimatedGasPrice.estimate (EstimatedGasPrice.mk l none) = l
    ∧ EstimatedGasPrice.estimate
        (EstimatedGasPrice.mk (some 1)
          (some (GasPrice1559.mk (some 20) (some 100) (some 2)))) = some 22
    ∧ EstimatedGasPrice.estimate
        (EstimatedGasPrice.mk (some 1)
          (some (GasPrice1559.mk (some 20) (some 21) (some 2)))) = some 21 := by
  have hgen : ∀ (b p m : ℚ) (l : F),
      EstimatedGasPrice.estimate
          (EstimatedGasPrice.mk l (some (GasPrice1559.mk (some b) (some m) (some p))))
        = some (min m (p + b)) := by
    intro b p m l
    simp only [EstimatedGasPrice.estimate, EstimatedGasPrice.min_by, fadd, fcmp, Option.getD]
    by_cases h1 : m < p + b
    · simp [h1, min_eq_left (le_of_lt h1)]
    · by_cases h2 : m = p + b
      · simp [h1, h2]
      · have h3 : p + b < m := lt_of_le_of_ne (not_lt.mp h1) (Ne.symm h2)
        simp [h1, h2, min_eq_right (le_of_lt h3)]
  refine ⟨hgen b p m l, rfl, ?_, ?_⟩
  · rw [hgen]
    norm_num [min_def]
  · rw [hgen]
    norm_num [min_def]

/-! ## Claim C5 -/

/-- Claim C5 as stated is false in its last part: with max_fee_per_gas = NaN
the comparison is unordered, the tie-break returns max_fee_per_gas, and the
result of estimate is NaN — NaN is silently propagated as the result. -/
theorem estimate_nan_counterexample :
    fcmp (GasPrice1559.mk (some 5) none (some 2)).max_fee_per_gas
        (fadd (GasPrice1559.mk (some 5) none (some 2)).max_priority_fee_per_gas
          (GasPrice1559.mk (some 5) none (some 2)).base_fee_per_gas) = none
    ∧ EstimatedGasPrice.estimate
        (EstimatedGasPrice.mk (some 1)
          (some (GasPrice1559.mk (some 5) none (some 2)))) = none :=
  ⟨rfl, rfl⟩

/-- Claim C5 (amended): estimate is total and never panics; an unordered
comparison (one side NaN) is treated as Equal, so estimate then returns
max_fee_per_gas — which is itself NaN exactly when max_fee_per_gas is NaN. -/
theorem estimate_unordered_tie_break (l : F) (g : GasPrice1559)
    (h : fcmp g.max_fee_per_gas
        (fadd g.max_priority_fee_per_gas g.base_fee_per_gas) = none) :
    EstimatedGasPrice.estimate (EstimatedGasPrice.mk l (some g))
      = g.max_fee_per_gas := by
  simp [EstimatedGasPrice.estimate, EstimatedGasPrice.min_by, h]

/-- Witness for estimate_unordered_tie_break with NaN max_fee_per_gas. -/
theorem estimate_unordered_tie_break_witness :
    fcmp (GasPrice1559.mk (some 7) none (some 3)).max_fee_per_gas
        (fadd (GasPrice1559.mk (some 7) none (some 3)).max_priority_fee_per_gas
          (GasPrice1559.mk (some 7) none (some 3)).base_fee_per_gas) = none
    ∧ EstimatedGasPrice.estimate
        (EstimatedGasPrice.mk (some 3)
          (some (GasPrice1559.mk (some 7) none (some 3))))
      = (GasPrice1559.mk (some 7) none (some 3)).max_fee_per_gas :=
  ⟨rfl, estimate_unordered_tie_break (some 3) (GasPrice1559.mk (some 7) none (some 3)) rfl⟩

/-! ## Claim C6 -/

/-- Ceiling an f64 twice equals ceiling it once. -/
lemma fceil_idem (x : F) : fceil (fceil x) = fceil x := by
  cases x with
  | none => rfl
  | some a => simp [fceil, Int.ceil_intCast]

/-- Claim C6: ceil_cap is idempotent, and it rounds legacy and the dynamic
fee's max_fee_per_gas up to the nearest whole unit while leaving
base_fee_per_gas and max_priority_fee_per_gas as they are. -/
theorem ceil_cap_idempotent (p : EstimatedGasPrice) (g : GasPrice1559) :
    p.ceil_cap.ceil_cap = p.ceil_cap
    ∧ p.ceil_cap.legacy = fceil p.legacy
    ∧ g.ceil_cap.max_fee_per_gas = fceil g.max_fee_per_gas
    ∧ g.ceil_cap.base_fee_per_gas = g.base_fee_per_gas
    ∧ g.ceil_cap.max_priority_fee_per_gas = g.max_priority_fee_per_gas := by
  refine ⟨?_, rfl, rfl, rfl, rfl⟩
  cases hp : p.eip1559 with
  | none => simp [EstimatedGasPrice.ceil_cap, hp, fceil_idem]
  | some g0 =>
      simp [EstimatedGasPrice.ceil_cap, GasPrice1559.ceil_cap, hp, fceil_idem]

/-! ## Claim C7 -/

/-- Claim C7: the zero-argument estimate of the GasPriceEstimating trait
delegates to estimate_with_limits with the default gas limit 21000 and the
default time limit of 30 seconds. -/
theorem estimate_defaults_delegate {α : Type} (e : GasPriceEstimating α) :
    e.estimate = e.estimate_with_limits (some 21000) (Duration.from_secs 30)
    ∧ DEFAULT_GAS_LIMIT = some 21000
    ∧ DEFAULT_TIME_LIMIT = Duration.from_secs 30 :=
  ⟨rfl, rfl, rfl⟩

/-! ## Claim C10 -/

/-- Claim C10: bump_cap, ceil_cap and limit_cap on EstimatedGasPrice keep the
eip1559 part present exactly when it was present, and preserve
base_fee_per_gas whenever it is present. -/
theorem transforms_preserve_eip1559 (p : EstimatedGasPrice) (f c : F) :
    ((p.bump_cap f).eip1559.isSome = p.eip1559.isSome
      ∧ p.ceil_cap.eip1559.isSome = p.eip1559.isSome
      ∧ (p.limit_cap c).eip1559.isSome = p.eip1559.isSome)
    ∧ ((p.bump_cap f).eip1559.map GasPrice1559.base_fee_per_gas
        = p.eip1559.map GasPrice1559.base_fee_per_gas
      ∧ p.ceil_cap.eip1559.map GasPrice1559.base_fee_per_gas
        = p.eip1559.map GasPrice1559.base_fee_per_gas
      ∧ (p.limit_cap c).eip1559.map GasPrice1559.base_fee_per_gas
        = p.eip1559.map GasPrice1559.base_fee_per_gas) := by
  cases hp : p.eip1559 with
  | none =>
      simp [EstimatedGasPrice.bump_cap, EstimatedGasPrice.ceil_cap,
        EstimatedGasPrice.limit_cap, hp]
  | some g =>
      simp [EstimatedGasPrice.bump_cap, EstimatedGasPrice.ceil_cap,
        EstimatedGasPrice.limit_cap, GasPrice1559.bump_cap,
        GasPrice1559.ceil_cap, GasPrice1559.limit_cap, hp]

/-! ## Claim C3 -/

/-- Claim C3 as stated is false: starting from the valid value
(base 1, max 80, priority 40), the one-element sequence limit_cap 7 leaves
priority 40 above max_fee 7, because limit_cap does not touch the priority. -/
theorem invariant_sequence_counterexample :
    fle (GasPrice1559.mk (some 1) (some 80) (some 40)).max_priority_fee_per_gas
        (GasPrice1559.mk (some 1) (some 80) (some 40)).max_fee_per_gas
    ∧ ¬ fle (applyOps (GasPrice1559.mk (some 1) (some 80) (some 40))
            [CapOp.limit (some 7)]).max_priority_fee_per_gas
          (applyOps (GasPrice1559.mk (some 1) (some 80) (some 40))
            [CapOp.limit (some 7)]).max_fee_per_gas := by
  decide

/-- An operation under which the invariant is actually preserved, relative to
the (never-changing) priority fee p: a bump by a finite factor of at least 1,
a ceil, or a limit whose finite cap is at least p. -/
def GoodOp (p : ℚ) : CapOp → Prop
  | CapOp.bump f => ∃ q : ℚ, f = some q ∧ 1 ≤ q
  | CapOp.ceil => True
  | CapOp.limit c => ∃ q : ℚ, c = some q ∧ p ≤ q

/-- A single good operation keeps the shape (b, some m, some p) and keeps the
max fee at least p. -/
lemma applyOp_good (b : F) (m p : ℚ) (op : CapOp) (hp : 0 ≤ p) (hpm : p ≤ m)
    (hop : GoodOp p op) :
    ∃ m2 : ℚ, applyOp (GasPrice1559.mk b (some m) (some p)) op
      = GasPrice1559.mk b (some m2) (some p) ∧ p ≤ m2 := by
  cases op with
  | bump f =>
      obtain ⟨q, rfl, hq⟩ := hop
      exact ⟨m * q, rfl, le_trans hpm (le_mul_of_one_le_right (le_trans hp hpm) hq)⟩
  | ceil =>
      exact ⟨((Int.ceil m : ℤ) : ℚ), rfl, le_trans hpm (Int.le_ceil m)⟩
  | limit c =>
      obtain ⟨q, rfl, hq⟩ := hop
      exact ⟨min m q, rfl, le_min hpm hq⟩

/-- Claim C3 (amended): the cross-field invariant priority ≤ max_fee is
preserved by any sequence of bump_cap with finite factor ≥ 1, ceil_cap, and
limit_cap with finite cap ≥ the priority fee, starting from a finite valid
value with 0 ≤ priority; plain limit_cap (cap below the priority) or bump_cap
with factor < 1 can break it, since none of the operations changes the
priority fee. -/
theorem invariant_preserved_amended (b : F) (m p : ℚ) (hp : 0 ≤ p) (hpm : p ≤ m)
    (ops : List CapOp) (hops : ∀ op ∈ ops, GoodOp p op) :
    fle (applyOps (GasPrice1559.mk b (some m) (some p)) ops).max_priority_fee_per_gas
        (applyOps (GasPrice1559.mk b (some m) (some p)) ops).max_fee_per_gas := by
  induction ops generalizing m with
  | nil => exact hpm
  | cons op rest ih =>
      obtain ⟨m2, heq, hm2⟩ :=
        applyOp_good b m p op hp hpm (hops op (List.mem_cons_self op rest))
      simp only [applyOps, heq]
      exact ih m2 hm2 (fun o ho => hops o (List.mem_cons_of_mem op ho))

/-- Witness for invariant_preserved_amended: start (0, 50, 2), apply
limit_cap 10. -/
theorem invariant_preserved_amended_witness :
    (0 : ℚ) ≤ 2 ∧ (2 : ℚ) ≤ 50
    ∧ fle (applyOps (GasPrice1559.mk (some 0) (some 50) (some 2))
          [CapOp.limit (some 10)]).max_priority_fee_per_gas
        (applyOps (GasPrice1559.mk (some 0) (some 50) (some 2))
          [CapOp.limit (some 10)]).max_fee_per_gas :=
  ⟨by norm_num, by norm_num,
    invariant_preserved_amended (some 0) 50 2 (by norm_num) (by norm_num)
      [CapOp.limit (some 10)]
      (by
        intro op hop
        simp only [List.mem_singleton] at hop
        subst hop
        exact ⟨10, rfl, by norm_num⟩)⟩

/-! ## Claim C8 -/

/-- Claim C8: the priority combinator returns the first success, and its
result does not depend on what comes after that success (no further source is
consulted); when every source fails, the result is the aggregated failure
listing every individual reason in priority order, so no single failure ever
surfaces as the overall result. -/
theorem priority_combinator_contract (ε γ : Type) (pre : List ε) (g : γ)
    (rest : List (Except ε γ)) (errs : List ε) :
    priorityEstimate (pre.map Except.error ++ Except.ok g :: rest) = Except.ok g
    ∧ @priorityEstimate ε γ (errs.map Except.error) = Except.error errs := by
  constructor
  · induction pre with
    | nil => rfl
    | cons e pre ih =>
        have hstep : priorityEstimate
            (List.map Except.error (e :: pre) ++ Except.ok g :: rest)
          = match priorityEstimate (List.map Except.error pre ++ Except.ok g :: rest) with
            | Except.ok g2 => Except.ok g2
            | Except.error es => Except.error (e :: es) := rfl
        rw [hstep, ih]
  · induction errs with
    | nil => rfl
    | cons e errs ih =>
        have hstep : @priorityEstimate ε γ (List.map Except.error (e :: errs))
          = match @priorityEstimate ε γ (List.map Except.error errs) with
            | Except.ok g2 => Except.ok g2
            | Except.error es => Except.error (e :: es) := rfl
        rw [hstep, ih]

/-! ## Claim C9 -/

/-- Field-wise conversion between the two structurally identical 1559 types of
src/gas_price.rs and src/lib.rs. -/
def toLib (g : GasPrice1559) : Lib.GasPrice1559 :=
  Lib.GasPrice1559.mk g.base_fee_per_gas g.max_fee_per_gas g.max_priority_fee_per_gas

/-- Claim C9: the two independent effective-price implementations agree on
every input, field for field — including the unordered (NaN) comparison case,
where both return max_fee_per_gas, and the no-dynamic-fee case, where both
return legacy. -/
theorem estimate_implementations_agree (l : F) (e : Option GasPrice1559) :
    EstimatedGasPrice.estimate (EstimatedGasPrice.mk l e)
      = Lib.GasPrice.estimate_gas_price (Lib.GasPrice.mk l (e.map toLib)) := by
  cases e with
  | none => rfl
  | some g =>
      simp only [EstimatedGasPrice.estimate, Lib.GasPrice.estimate_gas_price,
        Option.map_some', EstimatedGasPrice.min_by, toLib]
      cases h : fcmp g.max_fee_per_gas
          (fadd g.max_priority_fee_per_gas g.base_fee_per_gas) with
      | none => simp [h]
      | some o => cases o <;> simp [h]
